import Mathlib

/-
Shallow embedding of the reverse-geo repository.

The repository has two executable parts:
  * a TypeScript service (src/utils/geoUtils.ts, src/api/server.ts,
    src/api/controllers/countryController.ts, src/api/routes + the country
    model, src/index.ts) that resolves a coordinate to one of eight
    predefined country bounding boxes;
  * an osm2pgsql import pipeline (bin/2-import-in-pg.sh with its embedded
    Lua/SQL) that builds a boundaries table, an admin_hierarchy edge table
    and a recursive place_hierarchy view.

Coordinates are modelled as rationals: every numeric literal in the code is
a short decimal, exactly representable, and every comparison the claims
touch is order-only, so rationals are faithful to the doubles of the source.
-/

namespace ReverseGeo

/-- Coordinates (interface Coordinates, src/index.ts): a latitude/longitude
pair. -/
structure Coordinates where
  latitude : ℚ
  longitude : ℚ
deriving DecidableEq

/-- Bounding box in the order [west, south, east, north] used by the
predefined country data of geoUtils.ts. -/
structure BBox where
  west : ℚ
  south : ℚ
  east : ℚ
  north : ℚ
deriving DecidableEq

/-- One predefined country record of GeocodingService.loadPredefinedCountries
(geoUtils.ts lines 100-172). -/
structure Country where
  name : String
  code : String
  continent : String
  population : ℕ
  bbox : BBox
deriving DecidableEq

/-- CountryInfo (geoUtils.ts interface CountryInfo): the value the geocoding
service returns for a resolved coordinate. -/
structure CountryInfo where
  name : String
  code : Option String
  continent : Option String
  population : Option ℕ
deriving DecidableEq

/-- France entry of the predefined country list (geoUtils.ts line 103). -/
def franceCountry : Country :=
  { name := "France", code := "FR", continent := "Europe",
    population := 67000000,
    bbox := { west := mkRat (-51) 10, south := mkRat 413 10, east := mkRat 96 10, north := mkRat 511 10 } }

/-- Germany entry of the predefined country list (geoUtils.ts line 110). -/
def germanyCountry : Country :=
  { name := "Germany", code := "DE", continent := "Europe",
    population := 83000000,
    bbox := { west := mkRat 58 10, south := mkRat 472 10, east := mkRat 150 10, north := mkRat 551 10 } }

/-- United Kingdom entry of the predefined country list (geoUtils.ts line 117). -/
def unitedKingdomCountry : Country :=
  { name := "United Kingdom", code := "GB", continent := "Europe",
    population := 67000000,
    bbox := { west := mkRat (-86) 10, south := mkRat 499 10, east := mkRat 18 10, north := mkRat 609 10 } }

/-- United States entry of the predefined country list (geoUtils.ts line 124). -/
def unitedStatesCountry : Country :=
  { name := "United States", code := "US", continent := "North America",
    population := 331000000,
    bbox := { west := mkRat (-1250) 10, south := mkRat 240 10, east := mkRat (-660) 10, north := mkRat 490 10 } }

/-- Canada entry of the predefined country list (geoUtils.ts line 131). -/
def canadaCountry : Country :=
  { name := "Canada", code := "CA", continent := "North America",
    population := 38000000,
    bbox := { west := mkRat (-1410) 10, south := mkRat 417 10, east := mkRat (-526) 10, north := mkRat 831 10 } }

/-- Australia entry of the predefined country list (geoUtils.ts line 138). -/
def australiaCountry : Country :=
  { name := "Australia", code := "AU", continent := "Oceania",
    population := 25000000,
    bbox := { west := mkRat 1130 10, south := mkRat (-436) 10, east := mkRat 1536 10, north := mkRat (-106) 10 } }

/-- Japan entry of the predefined country list (geoUtils.ts line 145). -/
def japanCountry : Country :=
  { name := "Japan", code := "JP", continent := "Asia",
    population := 126000000,
    bbox := { west := mkRat 1295 10, south := mkRat 310 10, east := mkRat 1458 10, north := mkRat 455 10 } }

/-- Brazil entry of the predefined country list (geoUtils.ts line 152). -/
def brazilCountry : Country :=
  { name := "Brazil", code := "BR", continent := "South America",
    population := 212000000,
    bbox := { west := mkRat (-739) 10, south := mkRat (-337) 10, east := mkRat (-347) 10, north := mkRat 52 10 } }

/-- The predefined country list of loadPredefinedCountries, in the order the
source array declares it; the JavaScript Map preserves this insertion order
and getCountryByCoordinates iterates it in the same order. -/
def predefinedCountries : List Country :=
  [franceCountry, germanyCountry, unitedKingdomCountry, unitedStatesCountry,
   canadaCountry, australiaCountry, japanCountry, brazilCountry]

/-- turf.booleanPointInPolygon applied to the rectangle produced by
turf.bboxPolygon (geoUtils.ts lines 161-169 build the polygon, lines 186-191
run the test). For an axis-aligned rectangle the boundary-inclusive
point-in-polygon test of turf is exactly the interval test on each axis. -/
def booleanPointInBBoxPolygon (b : BBox) (c : Coordinates) : Bool :=
  decide (b.west ≤ c.longitude) && decide (c.longitude ≤ b.east) &&
  decide (b.south ≤ c.latitude) && decide (c.latitude ≤ b.north)

/-- Conversion of a stored country record to the CountryInfo the service
returns (geoUtils.ts lines 192-197). -/
def toCountryInfo (c : Country) : CountryInfo :=
  { name := c.name, code := some c.code, continent := some c.continent,
    population := some c.population }

/-- The mutable state of class GeocodingService (geoUtils.ts lines 45-47):
a private isLoaded flag and the map of country boundaries, here the list of
its values in insertion order. -/
structure GeocodingService where
  isLoaded : Bool
  countryBoundaries : List Country
deriving DecidableEq

/-- A freshly constructed GeocodingService: isLoaded is false and the
boundary map is empty. -/
def newGeocodingService : GeocodingService :=
  { isLoaded := false, countryBoundaries := [] }

/-- GeocodingService.loadPredefinedCountries (geoUtils.ts lines 100-172):
stores the predefined countries in the boundary map. -/
def loadPredefinedCountries (s : GeocodingService) : GeocodingService :=
  { s with countryBoundaries := predefinedCountries }

/-- GeocodingService.loadData (geoUtils.ts lines 53-83), success path: a
no-op when already loaded, otherwise it loads the predefined countries and
sets isLoaded. The filesystem existence checks are I/O against files outside
the repository and are not modelled; on their failure the method throws and
the state is unchanged up to the console side effects. -/
def loadData (s : GeocodingService) : GeocodingService :=
  if s.isLoaded then s
  else { loadPredefinedCountries s with isLoaded := true }

/-- The message of the throw in getCountryByCoordinates when the data is not
loaded (geoUtils.ts line 181). -/
def notLoadedMessage : String := "Country data not loaded. Call loadData() first."

/-- Body of the try block of getCountryByCoordinates (geoUtils.ts lines
184-201): build the point, scan the boundary map in insertion order, return
the first country whose polygon contains the point, else null. The turf
calls are total on the data the service stores, so the embedded body never
raises; the Except type records that the source wraps it in try/catch. -/
def getCountryBody (bs : List Country) (c : Coordinates) :
    Except String (Option CountryInfo) :=
  .ok ((bs.find? fun b => booleanPointInBBoxPolygon b.bbox c).map toCountryInfo)

/-- The try/catch of getCountryByCoordinates (geoUtils.ts lines 184-205):
any error raised by the body is caught and converted to null. -/
def getCountryTry (bs : List Country) (c : Coordinates) : Option CountryInfo :=
  match getCountryBody bs c with
  | .ok v => v
  | .error _ => none

/-- GeocodingService.getCountryByCoordinates (geoUtils.ts lines 179-206):
throws the not-loaded error when isLoaded is false, otherwise runs the
guarded lookup. -/
def getCountryByCoordinates (s : GeocodingService) (c : Coordinates) :
    Except String (Option CountryInfo) :=
  if s.isLoaded then .ok (getCountryTry s.countryBoundaries c)
  else .error notLoadedMessage

/-- State-passing form of getCountryByCoordinates: the method body assigns
no field of the class, so the state after the call is the state before it. -/
def getCountryRun (s : GeocodingService) (c : Coordinates) :
    Except String (Option CountryInfo) × GeocodingService :=
  (getCountryByCoordinates s c, s)

/-- Names of the countries stored in a service snapshot. -/
def serviceCountryNames (s : GeocodingService) : List String :=
  s.countryBoundaries.map Country.name

/-- The query point of the Paris scenario. -/
def parisCoordinates : Coordinates := { latitude := mkRat 488566 10000, longitude := mkRat 23522 10000 }

/-- An HTTP request to the country endpoint after parseFloat of its lat and
lon query parameters (server.ts lines 52-53, countryController.ts lines
21-22): none stands for NaN, the parseFloat result on a missing or
non-numeric parameter. -/
structure ApiRequest where
  lat : Option ℚ
  lon : Option ℚ
deriving DecidableEq

/-- The JSON response of the country endpoint: HTTP status, the country
object of a 200 answer, and the error message of a 4xx/5xx answer. The
coordinate echo of the 200/404 bodies is not modelled. -/
structure ApiResponse where
  status : ℕ
  country : Option CountryInfo
  errorMessage : Option String
deriving DecidableEq

/-- Error message of the 400 answer for NaN coordinates (server.ts lines
56-62, countryController.ts lines 25-30). -/
def invalidCoordinatesMessage : String :=
  "Invalid coordinates. Please provide valid lat and lon query parameters."

/-- Error message of the 400 answer for out-of-range coordinates (server.ts
lines 65-71, countryController.ts lines 33-38). -/
def outOfRangeMessage : String :=
  "Coordinates out of range. Latitude must be between -90 and 90, longitude between -180 and 180."

/-- getCountryByCoordinates of src/api/server.ts (lines 49-101): validate
the parsed coordinates (NaN, then range), call the geocoding service, map
its answer to 200 with the country, 404 when null, and map a thrown error
to 500 via the catch block. -/
def handleCountryRequest (s : GeocodingService) (req : ApiRequest) : ApiResponse :=
  match req.lat, req.lon with
  | some lat, some lon =>
    if lat < -90 ∨ lat > 90 ∨ lon < -180 ∨ lon > 180 then
      { status := 400, country := none, errorMessage := some outOfRangeMessage }
    else
      match getCountryByCoordinates s { latitude := lat, longitude := lon } with
      | .error _ =>
        { status := 500, country := none, errorMessage := some "Internal server error" }
      | .ok (some info) =>
        { status := 200, country := some info, errorMessage := none }
      | .ok none =>
        { status := 404, country := none,
          errorMessage := some "No country found for the given coordinates" }
  | _, _ =>
    { status := 400, country := none, errorMessage := some invalidCoordinatesMessage }

/-- GeocodingResult (src/index.ts): the placeholder reverse-geocoding
answer. -/
structure GeocodingResult where
  country : Option String
  state : Option String
  city : Option String
  address : Option String
  postalCode : Option String
deriving DecidableEq

/-- reverseGeocode (src/index.ts lines 155-169): the placeholder always
answers the same constant result, whatever the coordinates. -/
def reverseGeocode (_ : Coordinates) : GeocodingResult :=
  { country := some "Example Country", state := some "Example State",
    city := some "Example City", address := some "123 Example Street",
    postalCode := some "12345" }

/-- CountryService.convertToCountryInfo (countryModel, part of
src/api/routes/countryRoutes.ts as staged, lines 61-70): name falls back to
the Unknown label, the other fields are placeholders. -/
def convertToCountryInfo (g : GeocodingResult) : CountryInfo :=
  { name := g.country.getD "Unknown", code := some "XX",
    continent := some "Unknown", population := some 0 }

/-- CountryService.getCountryByCoordinates (countryModel lines 47-54):
delegates to the placeholder reverseGeocode and converts its result. -/
def countryServiceGetByCoordinates (c : Coordinates) : CountryInfo :=
  convertToCountryInfo (reverseGeocode c)

/-- getCountryByCoordinates of src/api/controllers/countryController.ts
(lines 18-60): the same validation as the server handler, then the
CountryService result returned with status 200; this path has no not-found
branch. -/
def handleControllerRequest (req : ApiRequest) : ApiResponse :=
  match req.lat, req.lon with
  | some lat, some lon =>
    if lat < -90 ∨ lat > 90 ∨ lon < -180 ∨ lon > 180 then
      { status := 400, country := none, errorMessage := some outOfRangeMessage }
    else
      { status := 200,
        country := some (countryServiceGetByCoordinates { latitude := lat, longitude := lon }),
        errorMessage := none }
  | _, _ =>
    { status := 400, country := none, errorMessage := some invalidCoordinatesMessage }

/-
Embedding of the osm2pgsql import pipeline (bin/2-import-in-pg.sh and the
Lua/SQL it carries). Geometries are opaque to the claims settled here, so a
boundary row keeps no geometry and the PostGIS ST_Contains test is passed in
as a Boolean relation between a boundary row and a place row.
-/

/-- A row of the boundaries table (the Lua define_area_table, columns except
the geometry and the raw tag map). -/
structure BoundaryRow where
  osmId : Int
  osmType : String
  adminLevel : Int
  name : Option String
  nameEn : Option String
deriving DecidableEq

/-- A row of the places table (the Lua define_node_table, columns except the
geometry and the raw tag map). -/
structure PlaceRow where
  osmId : Int
  place : String
  name : Option String
  nameEn : Option String
  population : Option Int
deriving DecidableEq

/-- A row of the admin_hierarchy table (the Lua define_table, lines 86-96 of
the embedded script). -/
structure HierarchyEdge where
  parentId : Int
  parentType : String
  parentLevel : Int
  parentName : Option String
  childId : Int
  childType : String
  childLevel : Int
  childName : Option String
  role : String
deriving DecidableEq

/-- A member entry of an OSM relation as the Lua processing sees it:
member.type is one of the strings r, w, n. -/
structure RelationMember where
  memberType : String
  ref : Int
  role : String
deriving DecidableEq

/-- The fields of an OSM relation that process_relation reads:
isAdministrative models tags.boundary == administrative, adminLevel models
tonumber(tags.admin_level) or 0. -/
structure OsmRelation where
  id : Int
  isAdministrative : Bool
  adminLevel : Int
  name : Option String
  members : List RelationMember
deriving DecidableEq

/-- The admin_hierarchy row process_relation inserts for one relation
member (lines 137-187 of the embedded Lua): child type R, W or N after the
member type, child level 0 and empty child name to be backfilled later.
Members with ref at most 0 are skipped. -/
def memberEdge (rel : OsmRelation) (m : RelationMember) : Option HierarchyEdge :=
  if (m.memberType = "r" ∨ m.memberType = "w" ∨ m.memberType = "n") ∧ m.ref > 0 then
    some { parentId := rel.id, parentType := "R", parentLevel := rel.adminLevel,
           parentName := rel.name, childId := m.ref,
           childType := if m.memberType = "r" then "R"
                        else if m.memberType = "w" then "W" else "N",
           childLevel := 0, childName := some "", role := m.role }
  else none

/-- process_relation (lines 114-189 of the embedded Lua), hierarchy part:
for an administrative relation, one explicit-membership edge per member. -/
def processRelationEdges (rel : OsmRelation) : List HierarchyEdge :=
  if rel.isAdministrative then rel.members.filterMap (memberEdge rel) else []

/-- Pair equality used by the NOT EXISTS subquery of the stage-1 derived
insert: two edges name the same (parent, child) pair when parent id, parent
type, child id and child type all agree. -/
def samePair (e d : HierarchyEdge) : Bool :=
  decide (e.parentId = d.parentId) && decide (e.parentType = d.parentType) &&
  decide (e.childId = d.childId) && decide (e.childType = d.childType)

/-- The contains-labelled row the stage-1 INSERT builds for a boundary row
and a place row (the SELECT list of the INSERT in process_stage1). -/
def derivedEdgeFor (b : BoundaryRow) (p : PlaceRow) : HierarchyEdge :=
  { parentId := b.osmId, parentType := b.osmType, parentLevel := b.adminLevel,
    parentName := b.name, childId := p.osmId, childType := "N",
    childLevel := 0, childName := p.name, role := "contains" }

/-- The rows added by the stage-1 INSERT (process_stage1, lines 246-264 of
the embedded Lua): for every boundary/place pair related by ST_Contains, a
contains edge, unless an edge with the same (parent, child) pair already
exists in admin_hierarchy. The subquery of NOT EXISTS reads the table state
before the INSERT, so the filter runs against the pre-existing edge set. -/
def derivedContainsEdges (stContains : BoundaryRow → PlaceRow → Bool)
    (bs : List BoundaryRow) (ps : List PlaceRow)
    (edges : List HierarchyEdge) : List HierarchyEdge :=
  bs.flatMap fun b => ps.filterMap fun p =>
    if stContains b p = true ∧ (edges.any fun e => samePair e (derivedEdgeFor b p)) = false
    then some (derivedEdgeFor b p) else none

/-- The admin_hierarchy table after the stage-1 INSERT: the pre-existing
explicit edges followed by the newly derived contains edges. -/
def processStage1Insert (stContains : BoundaryRow → PlaceRow → Bool)
    (bs : List BoundaryRow) (ps : List PlaceRow)
    (edges : List HierarchyEdge) : List HierarchyEdge :=
  edges ++ derivedContainsEdges stContains bs ps edges

/-- The stage-1 UPDATE backfilling child level and child name from the
boundaries table (lines 268-277 of the embedded Lua); when several boundary
rows share an id and type, SQL applies one of them, modelled as the first. -/
def updateChildInfo (bs : List BoundaryRow) (edges : List HierarchyEdge) :
    List HierarchyEdge :=
  edges.map fun e =>
    match bs.find? fun b => decide (b.osmId = e.childId) && decide (b.osmType = e.childType) with
    | some b => { e with childLevel := b.adminLevel, childName := b.name }
    | none => e

/-- A row of the recursive hierarchy CTE of the place_hierarchy view (lines
306-372 of the embedded Lua). The geometry column, copied unchanged through
the recursion, is not modelled. -/
structure HierarchyViewRow where
  placeId : Int
  placeName : Option String
  placeNameEn : Option String
  placeType : Option String
  stateId : Option Int
  stateName : Option String
  stateNameEn : Option String
  countryId : Option Int
  countryName : Option String
  countryNameEn : Option String
deriving DecidableEq

/-- The non-recursive branch of the CTE: one row per place with null state
and country columns. -/
def placeBaseRows (ps : List PlaceRow) : List HierarchyViewRow :=
  ps.map fun p =>
    { placeId := p.osmId, placeName := p.name, placeNameEn := p.nameEn,
      placeType := some p.place, stateId := none, stateName := none,
      stateNameEn := none, countryId := none, countryName := none,
      countryNameEn := none }

/-- The child id the recursive branch joins on (the first CASE of the join
condition): the country if known, else the state if known, else the place. -/
def ascendChildId (h : HierarchyViewRow) : Int :=
  match h.countryId with
  | some cid => cid
  | none =>
    match h.stateId with
    | some sid => sid
    | none => h.placeId

/-- The child type the recursive branch joins on (the second CASE of the
join condition): R once a state or country is known, N while still at the
place. -/
def ascendChildType (h : HierarchyViewRow) : String :=
  if h.countryId.isSome then "R" else if h.stateId.isSome then "R" else "N"

/-- One evaluation of the recursive branch of the CTE on the current working
set of rows: join each row against admin_hierarchy on the CASE child, join
the parent boundary restricted to admin levels 2 and 4, keep only rows still
missing a state or a country, and update the state or country columns after
the admin level of the parent. -/
def hierarchyStep (edges : List HierarchyEdge) (bs : List BoundaryRow)
    (rows : List HierarchyViewRow) : List HierarchyViewRow :=
  rows.flatMap fun h =>
    if h.countryId.isSome ∧ h.stateId.isSome then []
    else
      (edges.filter fun e =>
          decide (e.childId = ascendChildId h) && decide (e.childType = ascendChildType h)).flatMap
        fun e =>
          (bs.filter fun b =>
              decide (b.osmId = e.parentId) && decide (b.osmType = e.parentType) &&
              (decide (b.adminLevel = 2) || decide (b.adminLevel = 4))).map
            fun (b : BoundaryRow) =>
              { h with
                stateId := if b.adminLevel = 4 then some b.osmId else h.stateId,
                stateName := if b.adminLevel = 4 then b.name else h.stateName,
                stateNameEn := if b.adminLevel = 4 then b.nameEn else h.stateNameEn,
                countryId := if b.adminLevel = 2 then some b.osmId else h.countryId,
                countryName := if b.adminLevel = 2 then b.name else h.countryName,
                countryNameEn := if b.adminLevel = 2 then b.nameEn else h.countryNameEn }

/-- The working set of the recursive CTE after n evaluations of the
recursive branch. SQL semantics of WITH RECURSIVE ... UNION ALL: the view
is the union of all working sets, and evaluation terminates exactly when
some working set becomes empty. -/
def hierarchyIter (edges : List HierarchyEdge) (bs : List BoundaryRow)
    (ps : List PlaceRow) : ℕ → List HierarchyViewRow
  | 0 => placeBaseRows ps
  | n + 1 => hierarchyStep edges bs (hierarchyIter edges bs ps n)

/-- Modelled from the spec: the bounding-box area of the tie-breaking rule
of section 4.2; the code computes no area, this definition only states the
rule the claim asserts. -/
def bboxArea (b : BBox) : ℚ := (b.east - b.west) * (b.north - b.south)

/-- The strings a CountryInfo value carries. -/
def countryInfoStrings (i : CountryInfo) : List String :=
  [i.name] ++ i.code.toList ++ i.continent.toList

/-- A place in a cyclic hierarchy fixture: one city node. -/
def cycPlace : PlaceRow :=
  { osmId := 1, place := "city", name := some "P", nameEn := none,
    population := none }

/-- First level-4 boundary of the cyclic fixture. -/
def cycBoundaryA : BoundaryRow :=
  { osmId := 100, osmType := "R", adminLevel := 4, name := some "A",
    nameEn := none }

/-- Second level-4 boundary of the cyclic fixture. -/
def cycBoundaryB : BoundaryRow :=
  { osmId := 200, osmType := "R", adminLevel := 4, name := some "B",
    nameEn := none }

/-- Boundary table of the cyclic fixture. -/
def cycBoundaries : List BoundaryRow := [cycBoundaryA, cycBoundaryB]

/-- Edge set of the cyclic fixture: the place is a member of boundary A, and
the two boundaries are members of each other — the cyclic shape the spec
says an adversarial test may construct. -/
def cycEdges : List HierarchyEdge :=
  [ { parentId := 100, parentType := "R", parentLevel := 4,
      parentName := some "A", childId := 1, childType := "N",
      childLevel := 0, childName := some "P", role := "contains" },
    { parentId := 200, parentType := "R", parentLevel := 4,
      parentName := some "B", childId := 100, childType := "R",
      childLevel := 4, childName := some "A", role := "subarea" },
    { parentId := 100, parentType := "R", parentLevel := 4,
      parentName := some "A", childId := 200, childType := "R",
      childLevel := 4, childName := some "B", role := "subarea" } ]

/-- The CTE working-set row of the cyclic fixture whose state is boundary A. -/
def cycRowA : HierarchyViewRow :=
  { placeId := 1, placeName := some "P", placeNameEn := none,
    placeType := some "city", stateId := some 100, stateName := some "A",
    stateNameEn := none, countryId := none, countryName := none,
    countryNameEn := none }

/-- The CTE working-set row of the cyclic fixture whose state is boundary B. -/
def cycRowB : HierarchyViewRow :=
  { placeId := 1, placeName := some "P", placeNameEn := none,
    placeType := some "city", stateId := some 200, stateName := some "B",
    stateNameEn := none, countryId := none, countryName := none,
    countryNameEn := none }

/-- ST_Contains stand-in for the stage-1 witness data: every boundary
contains every place. -/
def witMutualContains (_ : BoundaryRow) (_ : PlaceRow) : Bool := true

/-- Boundary row of the stage-1 witness data. -/
def witBoundary : BoundaryRow :=
  { osmId := 10, osmType := "R", adminLevel := 4, name := some "State",
    nameEn := none }

/-- Place row of the stage-1 witness data. -/
def witPlace : PlaceRow :=
  { osmId := 1, place := "city", name := some "P", nameEn := none,
    population := none }

/-- An explicit-membership edge of the stage-1 witness data, for a pair
other than (witBoundary, witPlace). -/
def witExplicitEdge : HierarchyEdge :=
  { parentId := 10, parentType := "R", parentLevel := 4,
    parentName := some "State", childId := 5, childType := "N",
    childLevel := 0, childName := some "", role := "admin_centre" }

/-
Theorems. Each claim of the specification is settled below against the
definitions above.
-/

/-- Helper: find? over a split list returns the head of the suffix when the
prefix is all false and the head tests true. -/
theorem find_first_match {α : Type} (p : α → Bool) (pre post : List α) (b : α)
    (hpre : ∀ x ∈ pre, p x = false) (hb : p b = true) :
    (pre ++ b :: post).find? p = some b := by
  induction pre with
  | nil => simpa using List.find?_cons_of_pos post hb
  | cons a t ih =>
    have ha : p a = false := hpre a (List.mem_cons_self a t)
    have ih2 := ih fun x hx => hpre x (List.mem_cons_of_mem a hx)
    have : ((a :: t) ++ b :: post).find? p = (t ++ b :: post).find? p :=
      List.find?_cons_of_neg _ (by simp [ha])
    rw [this, ih2]

/-- C1 (counterexample): at the Paris point the loaded service returns only
the France country record; the answer carries neither the string Paris nor
Ile-de-France, and the loaded snapshot holds no boundary of either name, so
no city or state field and no approximation flags exist in the output. -/
theorem paris_scenario_counterexample :
    getCountryByCoordinates (loadData newGeocodingService) parisCoordinates
      = .ok (some (toCountryInfo franceCountry)) ∧
    "Paris" ∉ countryInfoStrings (toCountryInfo franceCountry) ∧
    "Ile-de-France" ∉ countryInfoStrings (toCountryInfo franceCountry) ∧
    "Paris" ∉ serviceCountryNames (loadData newGeocodingService) ∧
    "Ile-de-France" ∉ serviceCountryNames (loadData newGeocodingService) :=
  ⟨rfl, by decide, by decide, by decide, by decide⟩

/-- C1 (amended): the query point (48.8566, 2.3522) against the loaded
snapshot — which holds only the eight predefined country bounding boxes, the
France one being [-5.1, 41.3, 9.6, 51.1] — resolves to country France (code
FR, continent Europe, population 67000000), and the endpoint answers 200
with exactly that country object; the service produces no city, no state and
no approximation flags. -/
theorem paris_resolves_to_country_france_only :
    getCountryByCoordinates (loadData newGeocodingService) parisCoordinates
      = .ok (some (toCountryInfo franceCountry)) ∧
    handleCountryRequest (loadData newGeocodingService)
        { lat := some (mkRat 488566 10000), lon := some (mkRat 23522 10000) } =
      { status := 200, country := some (toCountryInfo franceCountry),
        errorMessage := none } :=
  ⟨rfl, rfl⟩

/-- C2: a loaded service answers null for a point contained in no stored
boundary, and the endpoint surfaces the null as a 404 answer instead of
inventing a default. -/
theorem uncovered_point_resolves_not_found (s : GeocodingService) (lat lon : ℚ)
    (hl : s.isLoaded = true)
    (hlat1 : -90 ≤ lat) (hlat2 : lat ≤ 90)
    (hlon1 : -180 ≤ lon) (hlon2 : lon ≤ 180)
    (hcov : ∀ b ∈ s.countryBoundaries,
      booleanPointInBBoxPolygon b.bbox { latitude := lat, longitude := lon } = false) :
    getCountryByCoordinates s { latitude := lat, longitude := lon } = .ok none ∧
    handleCountryRequest s { lat := some lat, lon := some lon } =
      { status := 404, country := none,
        errorMessage := some "No country found for the given coordinates" } := by
  have hfind : (s.countryBoundaries.find? fun b =>
      booleanPointInBBoxPolygon b.bbox { latitude := lat, longitude := lon }) = none :=
    List.find?_eq_none.mpr fun b hb => by simp [hcov b hb]
  have hres : getCountryByCoordinates s { latitude := lat, longitude := lon } = .ok none := by
    simp [getCountryByCoordinates, hl, getCountryTry, getCountryBody, hfind]
  have hrange : ¬ (lat < -90 ∨ lat > 90 ∨ lon < -180 ∨ lon > 180) := by
    push_neg
    exact ⟨hlat1, hlat2, hlon1, hlon2⟩
  refine ⟨hres, ?_⟩
  simp only [handleCountryRequest, if_neg hrange, hres]

/-- C2 witness: the mid-ocean point (0, 0) against the loaded predefined
snapshot resolves to null and the endpoint answers 404. -/
theorem uncovered_point_resolves_not_found_witness :
    getCountryByCoordinates (loadData newGeocodingService)
      { latitude := 0, longitude := 0 } = .ok none ∧
    handleCountryRequest (loadData newGeocodingService)
        { lat := some 0, lon := some 0 } =
      { status := 404, country := none,
        errorMessage := some "No country found for the given coordinates" } :=
  uncovered_point_resolves_not_found (loadData newGeocodingService) 0 0 rfl
    (by norm_num) (by norm_num) (by norm_num) (by norm_num) (by decide)

/-- C3 (counterexample): the point (48, 6) lies in both the France and the
Germany bounding boxes — two boundaries at the same (country) level — and
the Germany box has the strictly smaller area, yet the resolver selects
France, the first match in insertion order, not the smaller-area boundary. -/
theorem tie_break_smaller_area_counterexample :
    booleanPointInBBoxPolygon franceCountry.bbox { latitude := 48, longitude := 6 } = true ∧
    booleanPointInBBoxPolygon germanyCountry.bbox { latitude := 48, longitude := 6 } = true ∧
    bboxArea germanyCountry.bbox < bboxArea franceCountry.bbox ∧
    getCountryByCoordinates (loadData newGeocodingService) { latitude := 48, longitude := 6 }
      = .ok (some (toCountryInfo franceCountry)) ∧
    toCountryInfo franceCountry ≠ toCountryInfo germanyCountry := by
  refine ⟨rfl, rfl, ?_, rfl, by decide⟩
  simp only [bboxArea, germanyCountry, franceCountry, Rat.mkRat_eq_div]
  norm_num

/-- C3 (amended): when a point lies inside several stored boundaries, the
resolver selects the first containing boundary in the insertion order of the
predefined country map, regardless of bounding-box area or name. -/
theorem resolver_picks_first_in_insertion_order (s : GeocodingService)
    (c : Coordinates) (pre post : List Country) (b : Country)
    (hl : s.isLoaded = true)
    (hsplit : s.countryBoundaries = pre ++ b :: post)
    (hpre : ∀ x ∈ pre, booleanPointInBBoxPolygon x.bbox c = false)
    (hb : booleanPointInBBoxPolygon b.bbox c = true) :
    getCountryByCoordinates s c = .ok (some (toCountryInfo b)) := by
  have hfind := @find_first_match Country
    (fun x => booleanPointInBBoxPolygon x.bbox c) pre post b hpre hb
  simp [getCountryByCoordinates, hl, getCountryTry, getCountryBody, hsplit, hfind]

/-- C3 witness: the point (54, 10) misses the France box and hits the
Germany box, so the loaded service answers Germany. -/
theorem resolver_picks_first_in_insertion_order_witness :
    getCountryByCoordinates (loadData newGeocodingService)
      { latitude := 54, longitude := 10 } = .ok (some (toCountryInfo germanyCountry)) :=
  resolver_picks_first_in_insertion_order (loadData newGeocodingService)
    { latitude := 54, longitude := 10 } [franceCountry]
    [unitedKingdomCountry, unitedStatesCountry, canadaCountry, australiaCountry,
     japanCountry, brazilCountry]
    germanyCountry rfl rfl (by decide) (by decide)

/-- C4: a request whose parsed latitude or longitude is NaN, or whose
coordinates fall outside [-90, 90] x [-180, 180], is answered 400 by both
the server handler and the controller handler; the 400 answer is the same
whatever the state of the geocoding service, so no containment query runs on
such input. -/
theorem invalid_input_rejected_before_resolution (s1 s2 : GeocodingService)
    (req : ApiRequest)
    (h : req.lat = none ∨ req.lon = none ∨
      ∃ lat lon, req.lat = some lat ∧ req.lon = some lon ∧
        (lat < -90 ∨ lat > 90 ∨ lon < -180 ∨ lon > 180)) :
    (handleCountryRequest s1 req).status = 400 ∧
    handleCountryRequest s1 req = handleCountryRequest s2 req ∧
    (handleControllerRequest req).status = 400 := by
  rcases req with ⟨rlat, rlon⟩
  rcases h with h | h | ⟨lat, lon, h1, h2, hr⟩
  · simp only at h
    subst h
    cases rlon <;> exact ⟨rfl, rfl, rfl⟩
  · simp only at h
    subst h
    cases rlat <;> exact ⟨rfl, rfl, rfl⟩
  · simp only at h1 h2
    subst h1
    subst h2
    refine ⟨?_, ?_, ?_⟩ <;>
      simp only [handleCountryRequest, handleControllerRequest, if_pos hr]

/-- C4 witness: latitude 100 is out of range, so both handlers answer 400,
and the unloaded and the loaded service produce the same 400 answer. -/
theorem invalid_input_rejected_before_resolution_witness :
    (handleCountryRequest newGeocodingService { lat := some 100, lon := some 0 }).status = 400 ∧
    handleCountryRequest newGeocodingService { lat := some 100, lon := some 0 } =
      handleCountryRequest (loadData newGeocodingService) { lat := some 100, lon := some 0 } ∧
    (handleControllerRequest { lat := some 100, lon := some 0 }).status = 400 :=
  invalid_input_rejected_before_resolution newGeocodingService
    (loadData newGeocodingService) { lat := some 100, lon := some 0 }
    (Or.inr (Or.inr ⟨100, 0, rfl, rfl, Or.inr (Or.inl (by norm_num))⟩))

/-- C5: the stage-1 INSERT keeps every pre-existing explicit-membership edge
in the table, labels every added edge with the contains role, and adds no
edge whose (parent, child) pair already has an explicit edge — so for a pair
with an explicit edge, the explicit edge is the one kept. -/
theorem stage1_derived_edges_do_not_override_explicit
    (stContains : BoundaryRow → PlaceRow → Bool)
    (bs : List BoundaryRow) (ps : List PlaceRow) (edges : List HierarchyEdge)
    (e d : HierarchyEdge)
    (he : e ∈ edges)
    (hd : d ∈ derivedContainsEdges stContains bs ps edges) :
    e ∈ processStage1Insert stContains bs ps edges ∧
    d.role = "contains" ∧
    samePair e d = false := by
  rcases List.mem_flatMap.mp hd with ⟨b, hb, hmem⟩
  rcases List.mem_filterMap.mp hmem with ⟨p, hp, hif⟩
  by_cases hcond : stContains b p = true ∧
      (edges.any fun x => samePair x (derivedEdgeFor b p)) = false
  · rw [if_pos hcond] at hif
    have hdd : derivedEdgeFor b p = d := Option.some.inj hif
    have hall : ∀ x ∈ edges, samePair x (derivedEdgeFor b p) = false := by
      intro x hx
      have := List.any_eq_false.mp hcond.2 x hx
      exact Bool.not_eq_true _ ▸ this
    refine ⟨List.mem_append_left _ he, ?_, ?_⟩
    · rw [← hdd]
      rfl
    · rw [← hdd]
      exact hall e he
  · rw [if_neg hcond] at hif
    exact absurd hif (by simp)

/-- C5 witness: with one boundary containing one place and one explicit edge
for a different pair, the explicit edge survives stage 1, the derived edge
is contains-labelled and its pair differs from the explicit pair. -/
theorem stage1_derived_edges_do_not_override_explicit_witness :
    witExplicitEdge ∈ processStage1Insert witMutualContains [witBoundary] [witPlace] [witExplicitEdge] ∧
    (derivedEdgeFor witBoundary witPlace).role = "contains" ∧
    samePair witExplicitEdge (derivedEdgeFor witBoundary witPlace) = false :=
  stage1_derived_edges_do_not_override_explicit witMutualContains
    [witBoundary] [witPlace] [witExplicitEdge] witExplicitEdge
    (derivedEdgeFor witBoundary witPlace) (by decide) (by decide)

/-- Helper: on the cyclic fixture, every working set after the first step is
the single state-A row or the single state-B row, and the two alternate. -/
theorem cyc_iter_alternates (n : ℕ) :
    hierarchyIter cycEdges cycBoundaries [cycPlace] (n + 1) = [cycRowA] ∨
    hierarchyIter cycEdges cycBoundaries [cycPlace] (n + 1) = [cycRowB] := by
  induction n with
  | zero => exact Or.inl (by decide)
  | succ k ih =>
    have hstepA : hierarchyStep cycEdges cycBoundaries [cycRowA] = [cycRowB] := by decide
    have hstepB : hierarchyStep cycEdges cycBoundaries [cycRowB] = [cycRowA] := by decide
    rcases ih with h | h
    · exact Or.inr (by rw [hierarchyIter, h, hstepA])
    · exact Or.inl (by rw [hierarchyIter, h, hstepB])

/-- C6 (counterexample): on the cyclic edge set — a place below two level-4
boundaries that are members of each other — the recursive hierarchy view
never reaches an empty working set: the ascent does not terminate within any
bounded number of steps, and no visited set, depth guard or warning exists
in the view to stop it. -/
theorem cyclic_ascent_no_termination_counterexample :
    ¬ ∃ n : ℕ, hierarchyIter cycEdges cycBoundaries [cycPlace] n = [] := by
  rintro ⟨n, hn⟩
  cases n with
  | zero => exact absurd hn (by decide)
  | succ k =>
    rcases cyc_iter_alternates k with h | h <;> rw [h] at hn <;> cases hn

/-- C6 (amended): the place_hierarchy recursive view carries no visited-node
set and no ascent-depth guard; on the cyclic fixture every recursion depth
produces exactly one fresh row — the working set alternates between the two
boundaries of the cycle — so the recursion never empties its working set and
the ascent does not terminate; no DataIntegrityWarning is produced anywhere
in the pipeline. -/
theorem cyclic_ascent_generates_rows_forever (n : ℕ) :
    (hierarchyIter cycEdges cycBoundaries [cycPlace] n).length = 1 := by
  cases n with
  | zero => decide
  | succ k => rcases cyc_iter_alternates k with h | h <;> rw [h] <;> rfl

/-- C7 (counterexample): a GeocodingService is constructed with isLoaded
false, and resolving against it before loadData reaches the data-not-loaded
error branch — the branch is reachable, so resolution can fail because of
load ordering. -/
theorem not_loaded_error_reachable :
    newGeocodingService.isLoaded = false ∧
    getCountryByCoordinates newGeocodingService parisCoordinates
      = .error notLoadedMessage :=
  ⟨rfl, rfl⟩

/-- C7 (amended): the service keeps a mutable isLoaded flag and resolving
before loadData throws the not-loaded error; once the flag is set the result
of resolution is a function of the stored boundary list and the coordinate
alone, so two loaded services with the same boundaries answer alike. -/
theorem loaded_resolution_is_function_of_snapshot (s1 s2 : GeocodingService)
    (c : Coordinates)
    (hl1 : s1.isLoaded = true) (hl2 : s2.isLoaded = true)
    (hsame : s1.countryBoundaries = s2.countryBoundaries) :
    getCountryByCoordinates s1 c = .ok (getCountryTry s1.countryBoundaries c) ∧
    getCountryByCoordinates s1 c = getCountryByCoordinates s2 c := by
  constructor
  · simp [getCountryByCoordinates, hl1]
  · simp [getCountryByCoordinates, hl1, hl2, hsame]

/-- C7 witness: the loaded predefined service and a directly assembled
service with the same boundary list agree at the Paris point. -/
theorem loaded_resolution_is_function_of_snapshot_witness :
    getCountryByCoordinates (loadData newGeocodingService) parisCoordinates
      = .ok (getCountryTry (loadData newGeocodingService).countryBoundaries parisCoordinates) ∧
    getCountryByCoordinates (loadData newGeocodingService) parisCoordinates
      = getCountryByCoordinates
          { isLoaded := true, countryBoundaries := predefinedCountries } parisCoordinates :=
  loaded_resolution_is_function_of_snapshot (loadData newGeocodingService)
    { isLoaded := true, countryBoundaries := predefinedCountries }
    parisCoordinates rfl rfl rfl

/-- C8: one resolution call leaves the service state exactly as it was, and
a second call with the same point against that state returns the same
answer — resolution is idempotent and mutation-free. -/
theorem resolve_idempotent_and_mutation_free (s : GeocodingService)
    (c : Coordinates) :
    (getCountryRun s c).2 = s ∧
    (getCountryRun (getCountryRun s c).2 c).1 = (getCountryRun s c).1 :=
  ⟨rfl, rfl⟩

/-- C9: the CountryService path answers the constant record — name Example
Country, code XX, continent Unknown, population 0 — for every coordinate,
and the controller built on it answers only 400 or 200, never a 404
not-found. -/
theorem country_service_returns_constant (c : Coordinates) (req : ApiRequest) :
    countryServiceGetByCoordinates c =
      { name := "Example Country", code := some "XX",
        continent := some "Unknown", population := some 0 } ∧
    ((handleControllerRequest req).status = 400 ∨
      (handleControllerRequest req).status = 200) := by
  refine ⟨rfl, ?_⟩
  rcases req with ⟨rlat, rlon⟩
  cases rlat with
  | none => cases rlon <;> exact Or.inl rfl
  | some lat =>
    cases rlon with
    | none => exact Or.inl rfl
    | some lon =>
      by_cases hr : lat < -90 ∨ lat > 90 ∨ lon < -180 ∨ lon > 180
      · exact Or.inl (by simp only [handleControllerRequest, if_pos hr])
      · exact Or.inr (by simp only [handleControllerRequest, if_neg hr])

/-- C10: the geocoding method raises only when the data is not loaded: if a
call returns an error, the service was unloaded and the message is the
not-loaded message; equivalently, on a loaded service the method is total
and any internal failure of the lookup body is caught and turned into a
null result. -/
theorem resolution_error_only_when_not_loaded (s : GeocodingService)
    (c : Coordinates) (msg : String)
    (herr : getCountryByCoordinates s c = .error msg) :
    s.isLoaded = false ∧ msg = notLoadedMessage := by
  by_cases hl : s.isLoaded = true
  · rw [getCountryByCoordinates, if_pos hl] at herr
    cases herr
  · have hfalse : s.isLoaded = false := by
      cases h : s.isLoaded
      · rfl
      · exact absurd h hl
    rw [getCountryByCoordinates, hfalse] at herr
    simp only [Bool.false_eq_true, if_false] at herr
    exact ⟨hfalse, (Except.error.inj herr).symm⟩

/-- C10 witness: the fresh unloaded service raises exactly the not-loaded
error at the Paris point. -/
theorem resolution_error_only_when_not_loaded_witness :
    newGeocodingService.isLoaded = false ∧ notLoadedMessage = notLoadedMessage :=
  resolution_error_only_when_not_loaded newGeocodingService parisCoordinates
    notLoadedMessage rfl

end ReverseGeo
